import Mathlib

/-!
Verification of the Soil-Monitoring cloud anomaly-detection core.

This file is a shallow embedding, in Lean 4, of the algorithmic core of the
repository: the four detection methods, the severity classifier and the
forwarding policy of src/MS4_Cloud_Layer/cloud_node_a/anomaly_detector.py,
and the baseline store and per-reading ingestion loop of
src/MS4_Cloud_Layer/cloud_node_a/cloud_ingest.py.

Modelling conventions:
- Python float arithmetic is idealised as exact rational arithmetic.
- The z-score method in Python divides by a square root; the embedding carries
  the square of the z-score instead and compares it with the square of the
  threshold, which decides the same predicate for the nonnegative thresholds
  the repository uses (see zscore_anomaly).
- Python dictionaries are embedded as association lists in insertion order,
  which lets the lazy entry creation performed by collections.defaultdict on
  lookup be observed faithfully.
- Timestamps and human-readable description strings are not modelled; no
  claim concerns them.
-/

namespace SoilMonitoring

/-- Configuration of the detector, from AnomalyDetector.__init__
(anomaly_detector.py): the four tunable thresholds. -/
structure AnomalyDetector where
  zscore_threshold : ℚ
  iqr_multiplier : ℚ
  change_rate_threshold : ℚ
  window_size : Nat
  deriving DecidableEq

/-- Sample mean of a list, as computed by statistics.mean. -/
def mean (l : List ℚ) : ℚ := l.sum / (l.length : ℚ)

/-- Sum of squared deviations from the sample mean. -/
def sum_sq_dev (l : List ℚ) : ℚ := (l.map (fun x => (x - mean l) ^ 2)).sum

/-- Sample variance: the square of statistics.stdev, which divides the sum of
squared deviations by n - 1. -/
def sample_variance (l : List ℚ) : ℚ := sum_sq_dev l / ((l.length : ℚ) - 1)

/-- Embedding of AnomalyDetector._zscore_anomaly. The Python code computes
stddev = sqrt(sample variance) and zscore = abs((value - mean) / stddev) and
flags when zscore >= zscore_threshold. Over exact rational arithmetic the
square root is unavailable, so this embedding carries the square of the
z-score and compares it against the square of the threshold; for a
nonnegative threshold (the repository always uses 2.5) the flag decided here
is exactly the Python one, and the stddev == 0 guard is exactly the
sample_variance = 0 guard. The result triple mirrors the Python return
value (is_anomaly, zscore data, method name). -/
def zscore_anomaly (d : AnomalyDetector) (value : ℚ) (baseline_values : List ℚ) :
    Bool × Option ℚ × Option String :=
  if baseline_values.length < 2 then (false, none, none)
  else
    let var := sample_variance baseline_values
    if var = 0 then (false, none, none)
    else
      let zsq := (value - mean baseline_values) ^ 2 / var
      if d.zscore_threshold ^ 2 ≤ zsq then (true, some zsq, some "zscore")
      else (false, some zsq, none)

/-- Insertion of one element into an ascending list, helper for sort_list. -/
def insert_sorted (x : ℚ) : List ℚ → List ℚ
  | [] => [x]
  | y :: ys => if x ≤ y then x :: y :: ys else y :: insert_sorted x ys

/-- Embedding of the Python builtin sorted(...) on a numeric list: ascending
insertion sort. The ascending reordering of a list of rationals is unique up
to equality of elements, so this agrees with any correct sorting routine. -/
def sort_list (l : List ℚ) : List ℚ := l.foldr insert_sorted []

/-- Embedding of AnomalyDetector._iqr_anomaly: index-based quartile
approximation on the sorted window, bounds widened by the configured
multiplier, flag when the value falls strictly outside the bounds. The
result mirrors the Python triple (is_anomaly, (lower, upper), method). -/
def iqr_anomaly (d : AnomalyDetector) (value : ℚ) (baseline_values : List ℚ) :
    Bool × (ℚ × ℚ) × Option String :=
  if baseline_values.length < 4 then (false, (0, 0), none)
  else
    let sorted_vals := sort_list baseline_values
    let n := sorted_vals.length
    let q1 := sorted_vals.getD (n / 4) 0
    let q3 := sorted_vals.getD (3 * n / 4) 0
    let iqr := q3 - q1
    let lower_bound := q1 - d.iqr_multiplier * iqr
    let upper_bound := q3 + d.iqr_multiplier * iqr
    if value < lower_bound ∨ value > upper_bound then
      (true, (lower_bound, upper_bound), some "iqr")
    else (false, (lower_bound, upper_bound), none)

/-- Embedding of AnomalyDetector._change_rate_anomaly: abstains when the
previous value is absent or zero, otherwise flags when the absolute relative
change reaches the configured threshold. Mirrors the Python triple
(is_anomaly, change_rate, method). -/
def change_rate_anomaly (d : AnomalyDetector) (current_value : ℚ)
    (previous_value : Option ℚ) : Bool × Option ℚ × Option String :=
  match previous_value with
  | none => (false, none, none)
  | some prev =>
    if prev = 0 then (false, none, none)
    else
      let change_rate := |(current_value - prev) / prev|
      if d.change_rate_threshold ≤ change_rate then
        (true, some change_rate, some "change_rate")
      else (false, some change_rate, none)

/-- Embedding of AnomalyDetector._threshold_anomaly: flag below_critical
under the low bound, above_critical over the high bound. -/
def threshold_anomaly (value critical_low critical_high : ℚ) :
    Bool × Option String :=
  if value < critical_low then (true, some "below_critical")
  else if value > critical_high then (true, some "above_critical")
  else (false, none)

/-- One entry of the anomalies_detected list of a report. Each Python entry
is a dict holding the method name, a method-specific payload and a
human-readable description string (not modelled). The zscore constructor
carries the square of the z-score, see zscore_anomaly. -/
inductive Finding where
  | zscore (value : ℚ)
  | iqr (bounds : ℚ × ℚ)
  | changeRate (rate : ℚ)
  | threshold (status : String)
  deriving DecidableEq

/-- The method name stored in a finding's dict. -/
def Finding.method : Finding → String
  | .zscore _ => "zscore"
  | .iqr _ => "iqr"
  | .changeRate _ => "change_rate"
  | .threshold _ => "threshold"

/-- The result dict of AnomalyDetector.detect_anomalies (the timestamp field
is not modelled). -/
structure AnomalyReport where
  parameter : String
  current_value : ℚ
  anomalies_detected : List Finding
  severity : String
  deriving DecidableEq

/-- The severity classification at the end of detect_anomalies, as a function
of the number of findings: the code starts from normal and overwrites with
critical when at least 3, high when exactly 2, medium when exactly 1. -/
def severity_of (num_anomalies : Nat) : String :=
  if 3 ≤ num_anomalies then "critical"
  else if num_anomalies = 2 then "high"
  else if num_anomalies = 1 then "medium"
  else "normal"

/-- Numeric rank of the ordered severity tiers normal, medium, high,
critical, used to express the monotonicity invariant of the spec. -/
def severity_rank (severity : String) : Nat :=
  if severity = "critical" then 3
  else if severity = "high" then 2
  else if severity = "medium" then 1
  else 0

/-- Embedding of AnomalyDetector.detect_anomalies: run the four methods in
the fixed order zscore, iqr, change rate, threshold (the last only when both
critical bounds are supplied), collect the findings of the flagging methods
in that order, and classify the severity by the number of findings. -/
def detect_anomalies (d : AnomalyDetector) (current_value : ℚ)
    (parameter : String) (baseline_values : List ℚ)
    (previous_value : Option ℚ) (critical_low critical_high : Option ℚ) :
    AnomalyReport :=
  let z := zscore_anomaly d current_value baseline_values
  let i := iqr_anomaly d current_value baseline_values
  let c := change_rate_anomaly d current_value previous_value
  let findings :=
    (if z.1 then [Finding.zscore (z.2.1.getD 0)] else [])
    ++ (if i.1 then [Finding.iqr i.2.1] else [])
    ++ (if c.1 then [Finding.changeRate (c.2.1.getD 0)] else [])
    ++ (match critical_low, critical_high with
        | some lo, some hi =>
          let t := threshold_anomaly current_value lo hi
          if t.1 then [Finding.threshold (t.2.getD "")] else []
        | _, _ => [])
  { parameter := parameter
    current_value := current_value
    anomalies_detected := findings
    severity := severity_of findings.length }

/-- Embedding of AnomalyDetector.is_normal: no findings. -/
def is_normal (anomaly_result : AnomalyReport) : Bool :=
  anomaly_result.anomalies_detected.length == 0

/-- The severity_map lookup of AnomalyDetector.should_forward_to_cloud,
including the fallback of dict.get to the medium list for unrecognized
sensitivities. -/
def severity_map (sensitivity : String) : List String :=
  if sensitivity = "low" then ["critical"]
  else if sensitivity = "medium" then ["critical", "high"]
  else if sensitivity = "high" then ["critical", "high", "medium"]
  else ["critical", "high"]

/-- Embedding of AnomalyDetector.should_forward_to_cloud: membership of the
report's severity in the trigger list of the configured sensitivity. -/
def should_forward_to_cloud (anomaly_result : AnomalyReport)
    (sensitivity : String) : Bool :=
  (severity_map sensitivity).contains anomaly_result.severity

/-!
Embedding of CloudIngestion (cloud_ingest.py). Python dictionaries are
modelled as association lists in insertion order (Python dicts preserve
insertion order and have unique keys). Lookup scans for the first matching
key; assignment replaces the value of an existing key in place and appends
a new key at the end, exactly like dict assignment. The lookup performed by
collections.defaultdict additionally inserts the default value for an
absent key, which dict_get_default models by returning the possibly grown
association list together with the value.
-/

/-- First-match lookup in an association list (dict lookup / dict.get). -/
def alist_find {α : Type} (l : List (String × α)) (key : String) : Option α :=
  match l with
  | [] => none
  | kv :: rest => if kv.1 = key then some kv.2 else alist_find rest key

/-- Dict assignment: replace the value at an existing key, keeping its
position, or append the new pair at the end. -/
def alist_set {α : Type} (l : List (String × α)) (key : String) (v : α) :
    List (String × α) :=
  match l with
  | [] => [(key, v)]
  | kv :: rest =>
    if kv.1 = key then (key, v) :: rest else kv :: alist_set rest key v

/-- Lookup in a collections.defaultdict: return the stored value, or insert
and return the factory default when the key is absent. The second component
is the dictionary after the lookup. -/
def dict_get_default {α : Type} (l : List (String × α)) (key : String)
    (dflt : α) : α × List (String × α) :=
  match alist_find l key with
  | some v => (v, l)
  | none => (dflt, l ++ [(key, dflt)])

/-- The mutable state of a CloudIngestion object: self.baselines, a
defaultdict from device to a defaultdict from parameter to a value list, and
self.previous_values, a defaultdict from device to a plain dict from
parameter to the last value. -/
structure Store where
  baselines : List (String × List (String × List ℚ))
  previous_values : List (String × List (String × ℚ))
  deriving DecidableEq

/-- The state of a freshly constructed CloudIngestion: both dicts empty. -/
def emptyStore : Store := { baselines := [], previous_values := [] }

/-- The detector constructed in CloudIngestion.__init__: zscore_threshold
2.5, iqr_multiplier 1.5, change_rate_threshold 0.3, window_size 20. -/
def cloudDetector : AnomalyDetector :=
  { zscore_threshold := 5 / 2
    iqr_multiplier := 3 / 2
    change_rate_threshold := 3 / 10
    window_size := 20 }

/-- The critical_thresholds table of CloudIngestion.__init__, combined with
the two .get calls of on_message: the (low, high) pair for a parameter, or
absent entries for a parameter outside the table. -/
def get_critical_thresholds (parameter : String) : Option ℚ × Option ℚ :=
  if parameter = "N" then (some 0, some 100)
  else if parameter = "P" then (some 0, some 80)
  else if parameter = "K" then (some 0, some 400)
  else if parameter = "pH" then (some 4, some (17 / 2))
  else if parameter = "moisture" then (some 10, some 80)
  else if parameter = "temperature" then (some (-10), some 50)
  else (none, none)

/-- The sliding-window update at the heart of CloudIngestion._update_baseline:
append the value, then pop the oldest element when the length exceeds 20. -/
def update_window (window : List ℚ) (value : ℚ) : List ℚ :=
  let appended := window ++ [value]
  if appended.length > 20 then appended.drop 1 else appended

/-- Embedding of CloudIngestion._update_baseline: the defaultdict lookups
self.baselines[device][parameter] (which create absent entries), followed by
the in-place append / pop of update_window. -/
def update_baseline (s : Store) (device parameter : String) (value : ℚ) :
    Store :=
  let outer := dict_get_default s.baselines device []
  let inner := dict_get_default outer.1 parameter []
  { s with
    baselines :=
      alist_set outer.2 device (alist_set inner.2 parameter (update_window inner.1 value)) }

/-- Embedding of CloudIngestion._get_baseline: defaultdict lookups that
return a copy of the stored window (empty for absent keys) and, as a side
effect of defaultdict, insert empty entries for absent keys. -/
def get_baseline (s : Store) (device parameter : String) :
    List ℚ × Store :=
  let outer := dict_get_default s.baselines device []
  let inner := dict_get_default outer.1 parameter []
  (inner.1, { s with baselines := alist_set outer.2 device inner.2 })

/-- Embedding of CloudIngestion._get_previous_value: a defaultdict lookup of
the device (creating an empty inner dict when absent) followed by a plain
dict.get of the parameter, which creates nothing. -/
def get_previous_value (s : Store) (device parameter : String) :
    Option ℚ × Store :=
  let outer := dict_get_default s.previous_values device []
  (alist_find outer.1 parameter, { s with previous_values := outer.2 })

/-- Embedding of CloudIngestion._set_previous_value: defaultdict lookup of
the device followed by dict assignment of the parameter. -/
def set_previous_value (s : Store) (device parameter : String) (value : ℚ) :
    Store :=
  let outer := dict_get_default s.previous_values device []
  { s with
    previous_values := alist_set outer.2 device (alist_set outer.1 parameter value) }

/-- The window contents currently stored for a (device, parameter) pair,
viewed extensionally: an absent key reads as the empty window. -/
def windowOf (s : Store) (device parameter : String) : List ℚ :=
  (alist_find ((alist_find s.baselines device).getD []) parameter).getD []

/-- The previous value currently stored for a (device, parameter) pair,
viewed extensionally: absent keys read as absent values. -/
def prevOf (s : Store) (device parameter : String) : Option ℚ :=
  alist_find ((alist_find s.previous_values device).getD []) parameter

/-- The body of the per-parameter loop of CloudIngestion.on_message: read
the baseline window and previous value, run the detector with the critical
thresholds of the parameter, then record the new value into the baseline
window and the previous-value slot — in exactly this order. Returns the
state after the iteration and the report stored into anomaly_analysis. -/
def process_param (device : String) (s : Store) (pv : String × ℚ) :
    Store × (String × AnomalyReport) :=
  let b := get_baseline s device pv.1
  let p := get_previous_value b.2 device pv.1
  let th := get_critical_thresholds pv.1
  let report := detect_anomalies cloudDetector pv.2 pv.1 b.1 p.1 th.1 th.2
  let s3 := update_baseline p.2 device pv.1 pv.2
  let s4 := set_previous_value s3 device pv.1 pv.2
  (s4, (pv.1, report))

/-- The whole per-parameter loop of on_message, left to right over the
sensor readings of the message. -/
def process_params (device : String) :
    Store → List (String × ℚ) → Store × List (String × AnomalyReport)
  | s, [] => (s, [])
  | s, pv :: rest =>
    let step := process_param device s pv
    let tail := process_params device step.1 rest
    (tail.1, step.2 :: tail.2)

/-- The outcome of one on_message call that this embedding models: the
final store, the anomaly_analysis reports in loop order, and the single
boolean forwarding decision. -/
structure IngestResult where
  store : Store
  reports : List (String × AnomalyReport)
  forwarded : Bool
  deriving DecidableEq

/-- Embedding of the decision logic of CloudIngestion.on_message: run the
per-parameter loop, then forward when some parameter's report passes
should_forward_to_cloud at the hard-coded medium sensitivity, or when the
anomalies_found list is nonempty, i.e. some parameter's report is not
normal. -/
def on_message (s : Store) (device : String)
    (sensor_data : List (String × ℚ)) : IngestResult :=
  let r := process_params device s sensor_data
  let should_forward := r.2.any (fun pr => should_forward_to_cloud pr.2 "medium")
  let anomalies_found := r.2.any (fun pr => !(is_normal pr.2))
  { store := r.1, reports := r.2, forwarded := should_forward || anomalies_found }

/-- The baseline window of the first test scenario in the spec and in the
module's main block. -/
def scenarioWindow : List ℚ := [50, 51, 49, 52, 50, 48, 51, 49, 50, 51]

/-! Lemmas about association-list dictionaries. -/

theorem alist_find_set_self {α : Type} (l : List (String × α)) (k : String)
    (v : α) : alist_find (alist_set l k v) k = some v := by
  induction l with
  | nil => simp [alist_set, alist_find]
  | cons kv rest ih =>
    by_cases h : kv.1 = k
    · simp [alist_set, alist_find, h]
    · simp [alist_set, alist_find, h, ih]

theorem alist_find_set_ne {α : Type} (l : List (String × α)) (k k' : String)
    (v : α) (hne : k' ≠ k) :
    alist_find (alist_set l k v) k' = alist_find l k' := by
  induction l with
  | nil => simp [alist_set, alist_find, Ne.symm hne]
  | cons kv rest ih =>
    by_cases h : kv.1 = k
    · simp [alist_set, alist_find, h, Ne.symm hne]
    · simp [alist_set, alist_find, h, ih]

theorem alist_find_append {α : Type} (l m : List (String × α)) (k : String)
    (h : alist_find l k = none) :
    alist_find (l ++ m) k = alist_find m k := by
  induction l with
  | nil => simp
  | cons kv rest ih =>
    by_cases hk : kv.1 = k
    · simp [alist_find, hk] at h
    · simp only [alist_find, hk, if_false] at h
      simp only [List.cons_append, alist_find, hk, if_false]
      exact ih h

theorem dict_get_default_fst {α : Type} (l : List (String × α)) (k : String)
    (dflt : α) : (dict_get_default l k dflt).1 = (alist_find l k).getD dflt := by
  unfold dict_get_default
  cases h : alist_find l k <;> simp [h]

theorem dict_get_default_find_self {α : Type} (l : List (String × α))
    (k : String) (dflt : α) :
    alist_find (dict_get_default l k dflt).2 k
      = some ((alist_find l k).getD dflt) := by
  unfold dict_get_default
  cases h : alist_find l k with
  | none => simp [alist_find_append l _ k h, alist_find, h]
  | some v => simp [h]

theorem alist_find_append_single_ne {α : Type} (l : List (String × α))
    (k k' : String) (v : α) (hne : k' ≠ k) :
    alist_find (l ++ [(k, v)]) k' = alist_find l k' := by
  induction l with
  | nil => simp [alist_find, Ne.symm hne]
  | cons kv rest ih =>
    by_cases hk' : kv.1 = k'
    · simp [alist_find, hk']
    · simp only [List.cons_append, alist_find, hk', if_false]
      exact ih

theorem dict_get_default_find_ne {α : Type} (l : List (String × α))
    (k k' : String) (dflt : α) (hne : k' ≠ k) :
    alist_find (dict_get_default l k dflt).2 k' = alist_find l k' := by
  unfold dict_get_default
  cases h : alist_find l k with
  | none => exact alist_find_append_single_ne l k k' dflt hne
  | some v => simp

/-! Read and frame lemmas for the baseline store operations. -/

theorem get_baseline_fst (s : Store) (d p : String) :
    (get_baseline s d p).1 = windowOf s d p := by
  simp [get_baseline, windowOf, dict_get_default_fst]

theorem windowOf_get_baseline (s : Store) (d p d' p' : String) :
    windowOf (get_baseline s d p).2 d' p' = windowOf s d' p' := by
  by_cases hd : d' = d
  · subst hd
    by_cases hp : p' = p
    · subst hp
      simp [get_baseline, windowOf, alist_find_set_self,
        dict_get_default_find_self, dict_get_default_fst]
    · simp [get_baseline, windowOf, alist_find_set_self,
        dict_get_default_find_ne _ _ _ _ hp, dict_get_default_fst]
  · simp [get_baseline, windowOf, alist_find_set_ne _ _ _ _ hd,
      dict_get_default_find_ne _ _ _ _ hd]

theorem previous_values_get_baseline (s : Store) (d p : String) :
    (get_baseline s d p).2.previous_values = s.previous_values := rfl

theorem get_previous_value_fst (s : Store) (d p : String) :
    (get_previous_value s d p).1 = prevOf s d p := by
  simp [get_previous_value, prevOf, dict_get_default_fst]

theorem prevOf_get_previous_value (s : Store) (d p d' p' : String) :
    prevOf (get_previous_value s d p).2 d' p' = prevOf s d' p' := by
  by_cases hd : d' = d
  · subst hd
    simp [get_previous_value, prevOf, dict_get_default_find_self,
      dict_get_default_fst]
  · simp [get_previous_value, prevOf, dict_get_default_find_ne _ _ _ _ hd]

theorem baselines_get_previous_value (s : Store) (d p : String) :
    (get_previous_value s d p).2.baselines = s.baselines := rfl

theorem windowOf_update_baseline_self (s : Store) (d p : String) (v : ℚ) :
    windowOf (update_baseline s d p v) d p
      = update_window (windowOf s d p) v := by
  simp [update_baseline, windowOf, alist_find_set_self, dict_get_default_fst]

theorem windowOf_update_baseline_ne (s : Store) (d p d' p' : String) (v : ℚ)
    (h : ¬(d' = d ∧ p' = p)) :
    windowOf (update_baseline s d p v) d' p' = windowOf s d' p' := by
  by_cases hd : d' = d
  · subst hd
    have hp : p' ≠ p := fun hp => h ⟨rfl, hp⟩
    simp [update_baseline, windowOf, alist_find_set_self,
      alist_find_set_ne _ _ _ _ hp, dict_get_default_find_ne _ _ _ _ hp,
      dict_get_default_fst]
  · simp [update_baseline, windowOf, alist_find_set_ne _ _ _ _ hd,
      dict_get_default_find_ne _ _ _ _ hd]

theorem previous_values_update_baseline (s : Store) (d p : String) (v : ℚ) :
    (update_baseline s d p v).previous_values = s.previous_values := rfl

theorem prevOf_set_previous_value_self (s : Store) (d p : String) (v : ℚ) :
    prevOf (set_previous_value s d p v) d p = some v := by
  simp [set_previous_value, prevOf, alist_find_set_self]

theorem prevOf_set_previous_value_ne (s : Store) (d p d' p' : String) (v : ℚ)
    (h : ¬(d' = d ∧ p' = p)) :
    prevOf (set_previous_value s d p v) d' p' = prevOf s d' p' := by
  by_cases hd : d' = d
  · subst hd
    have hp : p' ≠ p := fun hp => h ⟨rfl, hp⟩
    simp [set_previous_value, prevOf, alist_find_set_self,
      alist_find_set_ne _ _ _ _ hp, dict_get_default_fst]
  · simp [set_previous_value, prevOf, alist_find_set_ne _ _ _ _ hd,
      dict_get_default_find_ne _ _ _ _ hd]

theorem baselines_set_previous_value (s : Store) (d p : String) (v : ℚ) :
    (set_previous_value s d p v).baselines = s.baselines := rfl

theorem prevOf_get_baseline (s : Store) (d p d' p' : String) :
    prevOf (get_baseline s d p).2 d' p' = prevOf s d' p' := rfl

theorem windowOf_get_previous_value (s : Store) (d p d' p' : String) :
    windowOf (get_previous_value s d p).2 d' p' = windowOf s d' p' := rfl

theorem windowOf_set_previous_value (s : Store) (d p d' p' : String) (v : ℚ) :
    windowOf (set_previous_value s d p v) d' p' = windowOf s d' p' := rfl

theorem prevOf_update_baseline (s : Store) (d p d' p' : String) (v : ℚ) :
    prevOf (update_baseline s d p v) d' p' = prevOf s d' p' := rfl

/-! Lemmas about the severity classification. -/

theorem severity_rank_severity_of (n : Nat) :
    severity_rank (severity_of n) = min n 3 := by
  match n with
  | 0 => rfl
  | 1 => rfl
  | 2 => rfl
  | m + 3 =>
    have h3 : 3 ≤ m + 3 := Nat.le_add_left 3 m
    have hsev : severity_of (m + 3) = "critical" := by
      simp only [severity_of, if_pos h3]
    have hrank : severity_rank "critical" = 3 := by decide
    rw [hsev, hrank]
    omega

theorem detect_anomalies_severity (d : AnomalyDetector) (v : ℚ) (p : String)
    (w : List ℚ) (prev lo hi : Option ℚ) :
    (detect_anomalies d v p w prev lo hi).severity
      = severity_of
        (detect_anomalies d v p w prev lo hi).anomalies_detected.length := rfl

/-- C1: for every call to detect_anomalies, the severity field of the
returned report is determined solely by the number of findings in it:
0 findings give normal, exactly 1 gives medium, exactly 2 gives high, and 3
or more give critical; consequently more findings never produce a lower
severity (monotone in the rank normal < medium < high < critical). -/
theorem C1_severity_from_finding_count (d : AnomalyDetector) (v : ℚ)
    (p : String) (w : List ℚ) (prev lo hi : Option ℚ) :
    (detect_anomalies d v p w prev lo hi).severity
      = severity_of
        (detect_anomalies d v p w prev lo hi).anomalies_detected.length
    ∧ severity_of 0 = "normal" ∧ severity_of 1 = "medium"
    ∧ severity_of 2 = "high" ∧ (∀ n, 3 ≤ n → severity_of n = "critical")
    ∧ ∀ m n, m ≤ n →
        severity_rank (severity_of m) ≤ severity_rank (severity_of n) := by
  refine ⟨rfl, rfl, rfl, rfl, ?_, ?_⟩
  · intro n hn
    simp only [severity_of, if_pos hn]
  · intro m n hmn
    rw [severity_rank_severity_of, severity_rank_severity_of]
    omega

/-- Witness for C1 at the spec's first scenario and at concrete counts. -/
theorem C1_witness :
    (detect_anomalies cloudDetector 120 "N" scenarioWindow (some 50) (some 10)
        (some 150)).severity
      = severity_of (detect_anomalies cloudDetector 120 "N" scenarioWindow
          (some 50) (some 10) (some 150)).anomalies_detected.length
    ∧ severity_of 7 = "critical"
    ∧ severity_rank (severity_of 1) ≤ severity_rank (severity_of 2) :=
  ⟨(C1_severity_from_finding_count cloudDetector 120 "N" scenarioWindow
      (some 50) (some 10) (some 150)).1,
   (C1_severity_from_finding_count cloudDetector 120 "N" scenarioWindow
      (some 50) (some 10) (some 150)).2.2.2.2.1 7 (by decide),
   (C1_severity_from_finding_count cloudDetector 120 "N" scenarioWindow
      (some 50) (some 10) (some 150)).2.2.2.2.2 1 2 (by decide)⟩

/-- C7: for every severity string, should_forward_to_cloud returns true
exactly when the severity is in the list mapped from the sensitivity (low
maps to critical only; medium to critical and high; high to critical, high
and medium), any unrecognized sensitivity behaves identically to medium,
and in particular sensitivity low with severity high yields false while
sensitivity medium with severity high yields true. -/
theorem C7_forwarding_policy (r : AnomalyReport) (sens : String) :
    (should_forward_to_cloud r sens = true ↔ r.severity ∈ severity_map sens)
    ∧ severity_map "low" = ["critical"]
    ∧ severity_map "medium" = ["critical", "high"]
    ∧ severity_map "high" = ["critical", "high", "medium"]
    ∧ (sens ≠ "low" → sens ≠ "medium" → sens ≠ "high" →
        ∀ r' : AnomalyReport,
          should_forward_to_cloud r' sens = should_forward_to_cloud r' "medium")
    ∧ (r.severity = "high" →
        should_forward_to_cloud r "low" = false
        ∧ should_forward_to_cloud r "medium" = true) := by
  refine ⟨?_, rfl, rfl, rfl, ?_, ?_⟩
  · simp [should_forward_to_cloud, List.contains, List.elem_iff]
  · intro h1 h2 h3 r'
    simp [should_forward_to_cloud, severity_map, h1, h2, h3]
  · intro hsev
    constructor
    · simp [should_forward_to_cloud, severity_map, hsev]
    · simp [should_forward_to_cloud, severity_map, hsev]

/-- Witness for C7 with an unrecognized sensitivity and a high-severity
report. -/
theorem C7_witness :
    (∀ r' : AnomalyReport,
      should_forward_to_cloud r' "weird" = should_forward_to_cloud r' "medium")
    ∧ (should_forward_to_cloud
        { parameter := "N", current_value := 0, anomalies_detected := [],
          severity := "high" } "low" = false
      ∧ should_forward_to_cloud
          { parameter := "N", current_value := 0, anomalies_detected := [],
            severity := "high" } "medium" = true) :=
  ⟨(C7_forwarding_policy
      { parameter := "N", current_value := 0, anomalies_detected := [],
        severity := "high" } "weird").2.2.2.2.1
      (by decide) (by decide) (by decide),
   (C7_forwarding_policy
      { parameter := "N", current_value := 0, anomalies_detected := [],
        severity := "high" } "low").2.2.2.2.2 rfl⟩

/-! Lemmas about the statistical helpers. -/

theorem sum_sq_dev_nonneg (l : List ℚ) : 0 ≤ sum_sq_dev l := by
  unfold sum_sq_dev
  apply List.sum_nonneg
  intro x hx
  obtain ⟨y, _, rfl⟩ := List.mem_map.mp hx
  positivity

theorem sample_variance_nonneg (l : List ℚ) (h : 2 ≤ l.length) :
    0 ≤ sample_variance l := by
  unfold sample_variance
  apply div_nonneg (sum_sq_dev_nonneg l)
  have h2 : (2 : ℚ) ≤ (l.length : ℚ) := by exact_mod_cast h
  linarith

/-- C3: for every window and value, if the window has fewer than 2 elements,
or the sample standard deviation of the window is zero, the Z-score method
produces no finding and no error; otherwise it produces a finding exactly
when the z-score, the absolute deviation of the value from the window mean
divided by the standard deviation, is at least the configured threshold, and
the finding carries that z-score magnitude. Standard deviation zero is
variance zero, and for the flag condition and the carried magnitude the
statement compares squares, which determines the same predicate and the same
magnitude since both sides are nonnegative (the configured threshold is
2.5). -/
theorem C3_zscore_method (d : AnomalyDetector) (v : ℚ) (w : List ℚ) :
    (w.length < 2 → zscore_anomaly d v w = (false, none, none))
    ∧ (sample_variance w = 0 → zscore_anomaly d v w = (false, none, none))
    ∧ (2 ≤ w.length → sample_variance w ≠ 0 →
        ((zscore_anomaly d v w).1 = true ↔
          d.zscore_threshold ^ 2 * sample_variance w ≤ (v - mean w) ^ 2)
        ∧ (zscore_anomaly d v w).2.1
            = some ((v - mean w) ^ 2 / sample_variance w)) := by
  refine ⟨?_, ?_, ?_⟩
  · intro h
    simp [zscore_anomaly, h]
  · intro h
    unfold zscore_anomaly
    by_cases hl : w.length < 2
    · simp [hl]
    · simp [hl, h]
  · intro hl hv
    have hlt : ¬ w.length < 2 := by omega
    have hpos : 0 < sample_variance w :=
      lt_of_le_of_ne (sample_variance_nonneg w hl) (Ne.symm hv)
    have hiff : d.zscore_threshold ^ 2 ≤ (v - mean w) ^ 2 / sample_variance w ↔
        d.zscore_threshold ^ 2 * sample_variance w ≤ (v - mean w) ^ 2 :=
      le_div_iff₀ hpos
    constructor
    · by_cases hz :
          d.zscore_threshold ^ 2 ≤ (v - mean w) ^ 2 / sample_variance w
      · simp [zscore_anomaly, hlt, hv, hz, hiff.mp hz]
      · simp only [zscore_anomaly, if_neg hlt, if_neg hv, if_neg hz]
        constructor
        · intro hfalse
          exact absurd hfalse (by decide)
        · intro hc
          exact absurd (hiff.mpr hc) hz
    · by_cases hz :
          d.zscore_threshold ^ 2 ≤ (v - mean w) ^ 2 / sample_variance w
      · simp [zscore_anomaly, hlt, hv, hz]
      · simp [zscore_anomaly, hlt, hv, hz]

/-- Witness for C3: a one-element window, a constant window with zero
variance, and a two-element window with positive variance. -/
theorem C3_witness :
    zscore_anomaly cloudDetector 120 [50] = (false, none, none)
    ∧ zscore_anomaly cloudDetector 120 [7, 7, 7] = (false, none, none)
    ∧ (((zscore_anomaly cloudDetector 120 [50, 60]).1 = true ↔
          cloudDetector.zscore_threshold ^ 2 * sample_variance [50, 60]
            ≤ ((120 : ℚ) - mean [50, 60]) ^ 2)
        ∧ (zscore_anomaly cloudDetector 120 [50, 60]).2.1
            = some (((120 : ℚ) - mean [50, 60]) ^ 2 / sample_variance [50, 60])) :=
  ⟨(C3_zscore_method cloudDetector 120 [50]).1 (by decide),
   (C3_zscore_method cloudDetector 120 [7, 7, 7]).2.1
     (by norm_num [sample_variance, sum_sq_dev, mean]),
   (C3_zscore_method cloudDetector 120 [50, 60]).2.2 (by decide)
     (by norm_num [sample_variance, sum_sq_dev, mean])⟩

/-! Lemmas about sorting and the quartile bounds. -/

theorem insert_sorted_length (x : ℚ) (l : List ℚ) :
    (insert_sorted x l).length = l.length + 1 := by
  induction l with
  | nil => rfl
  | cons y ys ih =>
    by_cases h : x ≤ y
    · simp [insert_sorted, h]
    · simp [insert_sorted, h, ih]

theorem sort_list_length (l : List ℚ) : (sort_list l).length = l.length := by
  induction l with
  | nil => rfl
  | cons x xs ih =>
    show (insert_sorted x (sort_list xs)).length = xs.length + 1
    rw [insert_sorted_length, ih]

/-- The first quartile index value of the claim: the element at index
floor(n / 4) of the sorted window, n the window length. -/
def q1_of (w : List ℚ) : ℚ := (sort_list w).getD (w.length / 4) 0

/-- The third quartile index value of the claim: the element at index
floor(3 n / 4) of the sorted window. -/
def q3_of (w : List ℚ) : ℚ := (sort_list w).getD (3 * w.length / 4) 0

/-- The lower IQR bound of the claim: q1 minus multiplier times (q3 - q1). -/
def iqr_lower (d : AnomalyDetector) (w : List ℚ) : ℚ :=
  q1_of w - d.iqr_multiplier * (q3_of w - q1_of w)

/-- The upper IQR bound of the claim: q3 plus multiplier times (q3 - q1). -/
def iqr_upper (d : AnomalyDetector) (w : List ℚ) : ℚ :=
  q3_of w + d.iqr_multiplier * (q3_of w - q1_of w)

theorem iqr_anomaly_eq (d : AnomalyDetector) (v : ℚ) (w : List ℚ)
    (h : ¬ w.length < 4) :
    iqr_anomaly d v w =
      if v < iqr_lower d w ∨ v > iqr_upper d w then
        (true, (iqr_lower d w, iqr_upper d w), some "iqr")
      else (false, (iqr_lower d w, iqr_upper d w), none) := by
  simp only [iqr_anomaly, if_neg h, sort_list_length, iqr_lower, iqr_upper,
    q1_of, q3_of]

/-- C4: for every window with fewer than 4 elements the IQR method never
produces a finding; for every window of length n at least 4, with s the
sorted window, q1 the element of s at index floor(n / 4), q3 the element at
index floor(3 n / 4) and iqr = q3 - q1, the method produces a finding
exactly when the value lies strictly outside the interval from
q1 - m * iqr to q3 + m * iqr for the configured multiplier m, and the
finding carries those computed bounds. -/
theorem C4_iqr_method (d : AnomalyDetector) (v : ℚ) (w : List ℚ) :
    (w.length < 4 → iqr_anomaly d v w = (false, (0, 0), none))
    ∧ (4 ≤ w.length →
        ((iqr_anomaly d v w).1 = true ↔
          (v < iqr_lower d w ∨ iqr_upper d w < v))
        ∧ (iqr_anomaly d v w).2.1 = (iqr_lower d w, iqr_upper d w)) := by
  constructor
  · intro h
    simp [iqr_anomaly, h]
  · intro h
    have hlt : ¬ w.length < 4 := by omega
    rw [iqr_anomaly_eq d v w hlt]
    by_cases hz : v < iqr_lower d w ∨ v > iqr_upper d w
    · simp [hz]
    · simp [hz]

/-- Witness for C4: a three-element window abstains; a four-element window
with an outlying value is evaluated against the quartile bounds. -/
theorem C4_witness :
    iqr_anomaly cloudDetector 120 [50, 51, 49] = (false, (0, 0), none)
    ∧ (((iqr_anomaly cloudDetector 120 [50, 51, 49, 52]).1 = true ↔
          ((120 : ℚ) < iqr_lower cloudDetector [50, 51, 49, 52]
            ∨ iqr_upper cloudDetector [50, 51, 49, 52] < 120))
        ∧ (iqr_anomaly cloudDetector 120 [50, 51, 49, 52]).2.1
            = (iqr_lower cloudDetector [50, 51, 49, 52],
               iqr_upper cloudDetector [50, 51, 49, 52])) :=
  ⟨(C4_iqr_method cloudDetector 120 [50, 51, 49]).1 (by decide),
   (C4_iqr_method cloudDetector 120 [50, 51, 49, 52]).2 (by decide)⟩

/-- C5 counterexample: the claim computes the rate as the absolute
difference divided by the previous value itself; for the negative previous
value -1 and current value -2 that quantity is -1, below the 0.3 threshold,
so the claim predicts no finding, yet the code divides first and then takes
the absolute value, obtaining rate 1 and producing a finding. -/
theorem C5_counterexample :
    (change_rate_anomaly cloudDetector (-2) (some (-1))).1 = true
    ∧ ¬(cloudDetector.change_rate_threshold ≤ |(-2 : ℚ) - (-1)| / (-1)) := by
  constructor
  · norm_num [change_rate_anomaly, cloudDetector, abs_of_nonneg, abs_of_nonpos]
  · norm_num [cloudDetector, abs_of_nonneg, abs_of_nonpos]

/-- C5 (amended): for every current value and previous value, the
change-rate method produces a finding exactly when the previous value is
present and nonzero and the rate, the absolute value of
(value - previous) / previous, is at least the configured change-rate
threshold, the finding carrying that rate; when the previous value is
absent or zero the method abstains without error. (The amendment moves the
absolute value outside the division, as the code computes it; the two agree
whenever the previous value is positive.) -/
theorem C5_change_rate_method (d : AnomalyDetector) (v : ℚ)
    (prevOpt : Option ℚ) :
    (prevOpt = none → change_rate_anomaly d v prevOpt = (false, none, none))
    ∧ (prevOpt = some 0 →
        change_rate_anomaly d v prevOpt = (false, none, none))
    ∧ ∀ p, prevOpt = some p → p ≠ 0 →
        ((change_rate_anomaly d v prevOpt).1 = true ↔
          d.change_rate_threshold ≤ |(v - p) / p|)
        ∧ (change_rate_anomaly d v prevOpt).2.1 = some (|(v - p) / p|) := by
  refine ⟨?_, ?_, ?_⟩
  · intro h
    subst h
    rfl
  · intro h
    subst h
    simp [change_rate_anomaly]
  · intro p hp hp0
    subst hp
    by_cases hz : d.change_rate_threshold ≤ |(v - p) / p|
    · simp [change_rate_anomaly, hp0, hz]
    · simp [change_rate_anomaly, hp0, hz]

/-- Witness for C5 (amended): absent previous, zero previous, and the
scenario previous value 50 with current value 120. -/
theorem C5_witness :
    change_rate_anomaly cloudDetector 120 none = (false, none, none)
    ∧ change_rate_anomaly cloudDetector 120 (some 0) = (false, none, none)
    ∧ (((change_rate_anomaly cloudDetector 120 (some 50)).1 = true ↔
          cloudDetector.change_rate_threshold ≤ |((120 : ℚ) - 50) / 50|)
        ∧ (change_rate_anomaly cloudDetector 120 (some 50)).2.1
            = some (|((120 : ℚ) - 50) / 50|)) :=
  ⟨(C5_change_rate_method cloudDetector 120 none).1 rfl,
   (C5_change_rate_method cloudDetector 120 (some 0)).2.1 rfl,
   (C5_change_rate_method cloudDetector 120 (some 50)).2.2 50 rfl
     (by norm_num)⟩

/-- Full evaluation of the spec's first scenario: window of ten values
around 50, previous value 50, critical bounds 10 and 150, current value
120. The z-score square is (120 - 50.1)^2 divided by the sample variance
129/90; the sorted window is [48, 49, 49, 50, 50, 50, 51, 51, 51, 52] with
q1 = 49 (index 2), q3 = 51 (index 7), so the IQR bounds are 46 and 54 and
120 lies above them; the change rate is 70/50 = 7/5; 120 lies inside the
critical bounds. Hence three findings and severity critical. -/
theorem scenario_report_eq :
    detect_anomalies cloudDetector 120 "N" scenarioWindow (some 50) (some 10)
        (some 150)
      = { parameter := "N", current_value := 120,
          anomalies_detected :=
            [Finding.zscore (1465803 / 430), Finding.iqr (46, 54),
             Finding.changeRate (7 / 5)],
          severity := "critical" } := by
  norm_num [detect_anomalies, zscore_anomaly, iqr_anomaly, change_rate_anomaly,
    threshold_anomaly, sort_list, insert_sorted, mean, sum_sq_dev,
    sample_variance, severity_of, cloudDetector, scenarioWindow,
    abs_of_nonneg, abs_of_nonpos]

/-- C6 counterexample: on the claimed scenario the code produces an IQR
finding as well (the sorted window gives bounds 46 and 54, and 120 is above
54), so the findings are not exactly the zscore and change-rate ones, and
with three findings the severity is critical, not high as the claim
states. -/
theorem C6_counterexample :
    (detect_anomalies cloudDetector 120 "N" scenarioWindow (some 50) (some 10)
        (some 150)).anomalies_detected.map Finding.method
      = ["zscore", "iqr", "change_rate"]
    ∧ (detect_anomalies cloudDetector 120 "N" scenarioWindow (some 50)
        (some 10) (some 150)).severity ≠ "high" := by
  rw [scenario_report_eq]
  exact ⟨rfl, by decide⟩

/-- C6 (amended): for window [50, 51, 49, 52, 50, 48, 51, 49, 50, 51],
previous value 50, critical bounds 10 and 150, and current value 120,
detect_anomalies returns a report whose findings are exactly one for the
zscore method, one for the iqr method and one for the change_rate method —
in particular no threshold finding — with severity critical. -/
theorem C6_scenario :
    (detect_anomalies cloudDetector 120 "N" scenarioWindow (some 50) (some 10)
        (some 150)).anomalies_detected
      = [Finding.zscore (1465803 / 430), Finding.iqr (46, 54),
         Finding.changeRate (7 / 5)]
    ∧ (detect_anomalies cloudDetector 120 "N" scenarioWindow (some 50)
        (some 10) (some 150)).severity = "critical" := by
  rw [scenario_report_eq]
  exact ⟨rfl, rfl⟩

/-! Lemmas about the sliding window. -/

theorem foldl_update_window (vs : List ℚ) : ∀ b : List ℚ, b.length ≤ 20 →
    vs.foldl update_window b = (b ++ vs).drop ((b ++ vs).length - 20) := by
  induction vs with
  | nil =>
    intro b hb
    simp [Nat.sub_eq_zero_of_le hb]
  | cons v vs ih =>
    intro b hb
    rw [List.foldl_cons]
    by_cases hfull : b.length = 20
    · have hgt : (b ++ [v]).length > 20 := by
        simp [hfull]
      have hb1 : update_window b v = (b ++ [v]).drop 1 := by
        show (if (b ++ [v]).length > 20 then (b ++ [v]).drop 1 else b ++ [v])
          = (b ++ [v]).drop 1
        rw [if_pos hgt]
      have hbne : 1 ≤ b.length := by omega
      have hlen : (update_window b v).length ≤ 20 := by
        rw [hb1]
        simp [hfull]
      rw [ih _ hlen, hb1, List.drop_append_of_le_length hbne,
        List.append_assoc, List.singleton_append]
      have h1 : (b.drop 1 ++ v :: vs).length - 20 = vs.length := by
        simp only [List.length_append, List.length_drop, List.length_cons,
          hfull]
        omega
      have h2 : (b ++ v :: vs).length - 20 = 1 + vs.length := by
        simp only [List.length_append, List.length_cons, hfull]
        omega
      rw [h1, h2]
      have h3 : (b ++ v :: vs).drop (1 + vs.length)
          = ((b ++ v :: vs).drop 1).drop vs.length :=
        (List.drop_drop vs.length 1 (b ++ v :: vs)).symm
      rw [h3, List.drop_append_of_le_length hbne]
    · have hgt : ¬ (b ++ [v]).length > 20 := by
        simp only [List.length_append, List.length_singleton]
        omega
      have hb1 : update_window b v = b ++ [v] := by
        show (if (b ++ [v]).length > 20 then (b ++ [v]).drop 1 else b ++ [v])
          = b ++ [v]
        rw [if_neg hgt]
      have hlen : (update_window b v).length ≤ 20 := by
        rw [hb1]
        simp only [List.length_append, List.length_singleton]
        omega
      rw [ih _ hlen, hb1, List.append_assoc, List.singleton_append]

theorem windowOf_fold_record (d p : String) (vs : List ℚ) : ∀ s : Store,
    windowOf (vs.foldl (fun st v => update_baseline st d p v) s) d p
      = vs.foldl update_window (windowOf s d p) := by
  induction vs with
  | nil => intro s; rfl
  | cons v vs ih =>
    intro s
    rw [List.foldl_cons, List.foldl_cons, ih, windowOf_update_baseline_self]

/-- C8: for every (entity key, parameter) pair and every sequence of record
operations, with the window capacity 20 used by the baseline update (equal
to the configured window size), the stored window never holds more than 20
elements, and once capacity is exceeded the oldest element is evicted
first, so after recording any sequence of values starting from the fresh
store the retained window equals the last 20 values recorded (all values
when fewer). -/
theorem C8_window_fifo (device param : String) (vs : List ℚ) :
    windowOf (vs.foldl (fun st v => update_baseline st device param v)
        emptyStore) device param
      = vs.drop (vs.length - 20)
    ∧ (windowOf (vs.foldl (fun st v => update_baseline st device param v)
        emptyStore) device param).length ≤ 20 := by
  have hw : windowOf (vs.foldl (fun st v => update_baseline st device param v)
      emptyStore) device param = vs.drop (vs.length - 20) := by
    rw [windowOf_fold_record]
    have hempty : windowOf emptyStore device param = [] := rfl
    rw [hempty, foldl_update_window vs [] (by simp)]
    simp
  refine ⟨hw, ?_⟩
  rw [hw]
  simp only [List.length_drop]
  omega

/-! Lemmas about the per-parameter ingestion loop. -/

theorem process_param_report (device : String) (s : Store) (pv : String × ℚ) :
    (process_param device s pv).2
      = (pv.1, detect_anomalies cloudDetector pv.2 pv.1
          (windowOf s device pv.1) (prevOf s device pv.1)
          (get_critical_thresholds pv.1).1 (get_critical_thresholds pv.1).2) := by
  simp only [process_param, get_baseline_fst, get_previous_value_fst,
    prevOf_get_baseline]

theorem process_param_frame (device : String) (s : Store) (pv : String × ℚ)
    (d' q : String) (h : ¬(d' = device ∧ q = pv.1)) :
    windowOf (process_param device s pv).1 d' q = windowOf s d' q
    ∧ prevOf (process_param device s pv).1 d' q = prevOf s d' q := by
  simp only [process_param]
  constructor
  · rw [windowOf_set_previous_value, windowOf_update_baseline_ne _ _ _ _ _ _ h,
      windowOf_get_previous_value, windowOf_get_baseline]
  · rw [prevOf_set_previous_value_ne _ _ _ _ _ _ h, prevOf_update_baseline,
      prevOf_get_previous_value, prevOf_get_baseline]

theorem process_params_severity (device : String) (data : List (String × ℚ)) :
    ∀ (s : Store) (pr : String × AnomalyReport),
      pr ∈ (process_params device s data).2 →
      pr.2.severity = severity_of pr.2.anomalies_detected.length := by
  induction data with
  | nil =>
    intro s pr h
    simp [process_params] at h
  | cons hd tl ih =>
    intro s pr h
    simp only [process_params] at h
    rcases List.mem_cons.mp h with heq | htl
    · subst heq
      rw [process_param_report]
      rfl
    · exact ih (process_param device s hd).1 pr htl

theorem process_params_mem (device : String) (data : List (String × ℚ)) :
    ∀ s : Store, (data.map Prod.fst).Nodup →
      ∀ pv ∈ data,
        (pv.1, detect_anomalies cloudDetector pv.2 pv.1
          (windowOf s device pv.1) (prevOf s device pv.1)
          (get_critical_thresholds pv.1).1 (get_critical_thresholds pv.1).2)
          ∈ (process_params device s data).2 := by
  induction data with
  | nil =>
    intro s _ pv hpv
    simp at hpv
  | cons hd tl ih =>
    intro s hnodup pv hpv
    have hcons : hd.1 ∉ tl.map Prod.fst ∧ (tl.map Prod.fst).Nodup :=
      List.nodup_cons.mp (by simpa using hnodup)
    simp only [process_params]
    rcases List.mem_cons.mp hpv with heq | htl
    · subst heq
      rw [process_param_report]
      exact List.mem_cons_self _ _
    · have hne : pv.1 ≠ hd.1 := by
        intro hEq
        have hmem : pv.1 ∈ tl.map Prod.fst := List.mem_map_of_mem Prod.fst htl
        rw [hEq] at hmem
        exact hcons.1 hmem
      have hframe := process_param_frame device s hd device pv.1
        (fun hc => hne hc.2)
      have hmem := ih (process_param device s hd).1 hcons.2 pv htl
      rw [hframe.1, hframe.2] at hmem
      exact List.mem_cons_of_mem _ hmem

theorem medium_policy_nonempty (r : AnomalyReport)
    (hsev : r.severity = severity_of r.anomalies_detected.length)
    (h : should_forward_to_cloud r "medium" = true) :
    r.anomalies_detected ≠ [] := by
  intro hnil
  rw [hnil] at hsev
  have hnormal : r.severity = "normal" := hsev
  unfold should_forward_to_cloud at h
  rw [hnormal] at h
  exact absurd h (by decide)

/-- C2: for every processed reading, the coordinator's single forward
decision is true exactly when some parameter's sensitivity-based policy
check returns true or some parameter's report contains at least one
finding; with the configured medium sensitivity this disjunction makes the
reading be forwarded exactly when any single finding exists for any
parameter, regardless of the sensitivity tier. -/
theorem C2_forward_decision (s : Store) (device : String)
    (data : List (String × ℚ)) :
    ((on_message s device data).forwarded = true ↔
      ((∃ pr ∈ (on_message s device data).reports,
          should_forward_to_cloud pr.2 "medium" = true)
        ∨ ∃ pr ∈ (on_message s device data).reports,
            pr.2.anomalies_detected ≠ []))
    ∧ ((on_message s device data).forwarded = true ↔
        ∃ pr ∈ (on_message s device data).reports,
          pr.2.anomalies_detected ≠ []) := by
  have hiff1 : (on_message s device data).forwarded = true ↔
      ((∃ pr ∈ (on_message s device data).reports,
          should_forward_to_cloud pr.2 "medium" = true)
        ∨ ∃ pr ∈ (on_message s device data).reports,
            pr.2.anomalies_detected ≠ []) := by
    simp [on_message, List.any_eq_true, is_normal, List.length_eq_zero]
  refine ⟨hiff1, ?_, ?_⟩
  · intro h
    rcases hiff1.mp h with ⟨pr, hmem, hpol⟩ | hex
    · refine ⟨pr, hmem, ?_⟩
      have hsev := process_params_severity device data s pr hmem
      exact medium_policy_nonempty pr.2 hsev hpol
    · exact hex
  · intro hex
    exact hiff1.mpr (Or.inr hex)

/-- C9: for every processed reading and every parameter in it (the
parameters of a reading are distinct, being dict keys), the window and
previous value used in the evaluation are those from before the reading
arrived: the baseline append and the previous-value overwrite for that
(key, parameter) pair happen only after detect_anomalies has been run for
that parameter, so a reading is never compared against itself. -/
theorem C9_read_evaluate_write (s : Store) (device : String)
    (data : List (String × ℚ)) (hnodup : (data.map Prod.fst).Nodup) :
    ∀ pv ∈ data,
      (pv.1, detect_anomalies cloudDetector pv.2 pv.1
        (windowOf s device pv.1) (prevOf s device pv.1)
        (get_critical_thresholds pv.1).1 (get_critical_thresholds pv.1).2)
        ∈ (on_message s device data).reports :=
  process_params_mem device data s hnodup

/-- Witness for C9: a two-parameter reading on the fresh store; the second
parameter's report is evaluated against the pre-reading (empty) state. -/
theorem C9_witness :
    ("pH", detect_anomalies cloudDetector 9 "pH"
        (windowOf emptyStore "dev" "pH") (prevOf emptyStore "dev" "pH")
        (get_critical_thresholds "pH").1 (get_critical_thresholds "pH").2)
      ∈ (on_message emptyStore "dev" [("N", 120), ("pH", 9)]).reports :=
  C9_read_evaluate_write emptyStore "dev" [("N", 120), ("pH", 9)]
    (by decide) ("pH", 9)
    (List.mem_cons_of_mem _ (List.mem_cons_self _ _))

/-- C10 counterexample: the claim says store entries are created only by
the record operation and that querying an absent key creates no entry, but
_get_baseline reads through collections.defaultdict, whose lookup inserts
the default for an absent key: reading (device-1, N) on the fresh store
leaves an empty-window entry behind. -/
theorem C10_counterexample :
    (get_baseline emptyStore "device-1" "N").2.baselines
      = [("device-1", [("N", [])])]
    ∧ emptyStore.baselines = []
    ∧ (get_baseline emptyStore "device-1" "N").1 = [] :=
  ⟨rfl, rfl, rfl⟩

/-- C10 (amended): the read operations return the stored window snapshot
and previous value, with an empty window or absent previous value for
absent keys, and leave the store's contents unchanged: no window and no
previous value of any (key, parameter) pair is modified by a read. (The
amendment drops the no-entry-creation part: the defaultdict lookup inserts
an empty default entry for an absent key even on reads, though such an
entry still reads back as an empty window or absent previous value.) -/
theorem C10_read_frame (s : Store) (d p : String) :
    ((get_baseline s d p).1 = windowOf s d p)
    ∧ (∀ d' p', windowOf (get_baseline s d p).2 d' p' = windowOf s d' p')
    ∧ ((get_baseline s d p).2.previous_values = s.previous_values)
    ∧ ((get_previous_value s d p).1 = prevOf s d p)
    ∧ (∀ d' p', prevOf (get_previous_value s d p).2 d' p' = prevOf s d' p')
    ∧ ((get_previous_value s d p).2.baselines = s.baselines)
    ∧ (alist_find s.baselines d = none → (get_baseline s d p).1 = [])
    ∧ (alist_find s.previous_values d = none →
        (get_previous_value s d p).1 = none) := by
  refine ⟨get_baseline_fst s d p, windowOf_get_baseline s d p, rfl,
    get_previous_value_fst s d p, prevOf_get_previous_value s d p, rfl,
    ?_, ?_⟩
  · intro h
    rw [get_baseline_fst]
    simp [windowOf, h, alist_find]
  · intro h
    rw [get_previous_value_fst]
    simp [prevOf, h, alist_find]

/-- Witness for C10 (amended) on the fresh store. -/
theorem C10_witness :
    (get_baseline emptyStore "dev" "N").1 = windowOf emptyStore "dev" "N"
    ∧ windowOf (get_baseline emptyStore "dev" "N").2 "dev2" "P"
        = windowOf emptyStore "dev2" "P"
    ∧ (get_baseline emptyStore "dev" "N").1 = []
    ∧ (get_previous_value emptyStore "dev" "N").1 = none :=
  ⟨(C10_read_frame emptyStore "dev" "N").1,
   (C10_read_frame emptyStore "dev" "N").2.1 "dev2" "P",
   (C10_read_frame emptyStore "dev" "N").2.2.2.2.2.2.1 rfl,
   (C10_read_frame emptyStore "dev" "N").2.2.2.2.2.2.2 rfl⟩

end SoilMonitoring
